import Mathlib

/-!
Verification of `commandalarm` (src/commandalarm/commandalarm.py).

The source is a small command-line alarm program: `set_alarm` computes the
next occurrence of a requested time-of-day on a requested ISO weekday and
returns a timer; `main` waits for the timer, runs a configured command via
`subprocess.run`, classifies the outcome through a chain of exception
handlers, and either exits or (in repeat mode) schedules the next cycle.

The embedding below models:
* the date/time arithmetic of `set_alarm` (lines 60-79) over an abstract
  clock: a moment is an absolute day number `dayNum` (consecutive days,
  day 0 a Monday, so `isoweekday d = d % 7 + 1`) together with a
  time-of-day `tod` in seconds (`0 ≤ tod < 86400`); all instants are
  measured as integer seconds from day 0 midnight;
* the command construction of `main` (lines 205-208): a shell string built
  with Python string formatting and `' '.join`, or an argv vector;
* one execution cycle of `main` (lines 210-237): the result of
  `subprocess.run` is abstracted as a `RunEvent` (normal completion with a
  return code and captured output, `FileNotFoundError`,
  `PermissionError`, or `subprocess.TimeoutExpired`), and the chain of
  `except` clauses maps it to a process exit or a printed stdout;
* the control loop of `main` (lines 199-244) over a list of per-cycle
  events, counting how many cycles run and how the process ends;
* the `KeyboardInterrupt` handler (lines 247-250) over a timer state.
-/

namespace Commandalarm

/-! ### Alarm scheduling: `set_alarm`, lines 60-79 -/

/-- A wall-clock moment: absolute day number and time-of-day in seconds.
Day 0 is a Monday, so consecutive day numbers cycle through the weekdays. -/
structure Now where
  dayNum : Nat
  tod : Nat
deriving DecidableEq

/-- `datetime.date.isoweekday()` for the abstract day number: 1 = Monday,
7 = Sunday. -/
def isoweekday (d : Nat) : Nat := d % 7 + 1

/-- The current moment as absolute seconds since day 0 midnight. -/
def now_abs (n : Now) : Int := (n.dayNum : Int) * 86400 + (n.tod : Int)

/-- Line 68: `days_ahead = day - date_obj.isoweekday()` (before the
adjustment on lines 69-71). -/
def days_ahead_init (n : Now) (day : Nat) : Int :=
  (day : Int) - (isoweekday n.dayNum : Int)

/-- Lines 69-71: add 7 when the requested weekday is earlier in the week, or
is today but the requested time-of-day has already strictly passed
(`datetime.datetime.now().time() > time_obj`). -/
def days_ahead (n : Now) (t day : Nat) : Int :=
  if days_ahead_init n day < 0 ∨ (days_ahead_init n day = 0 ∧ (t : Int) < (n.tod : Int)) then
    days_ahead_init n day + 7
  else
    days_ahead_init n day

/-- The instant produced by the weekday arithmetic before the lines 69-71
adjustment: today's date shifted by `days_ahead_init`, combined with the
requested time-of-day `t`. -/
def candidate_datetime (n : Now) (t day : Nat) : Int :=
  ((n.dayNum : Int) + days_ahead_init n day) * 86400 + (t : Int)

/-- Lines 72-73: `alarm_datetime = datetime.datetime.combine(date_obj, time_obj)`
with `date_obj` shifted by the adjusted `days_ahead`, as absolute seconds. -/
def alarm_datetime (n : Now) (t day : Nat) : Int :=
  ((n.dayNum : Int) + days_ahead n t day) * 86400 + (t : Int)

/-- Lines 74-75: `seconds_until_alarm = (alarm_datetime - datetime.datetime.now()).total_seconds()`. -/
def seconds_until_alarm (n : Now) (t day : Nat) : Int :=
  alarm_datetime n t day - now_abs n

/-- Lines 76-77: the timer duration, clamped to 1 second when the computed
delay is not positive. -/
def fire_delay (n : Now) (t day : Nat) : Int :=
  if seconds_until_alarm n t day ≤ 0 then 1 else seconds_until_alarm n t day

/-- The absolute instant at which the returned `threading.Timer` fires:
`now` plus the timer duration. -/
def fire_instant (n : Now) (t day : Nat) : Int :=
  now_abs n + fire_delay n t day

/-- Time-of-day (seconds past midnight) of the fire instant. -/
def fire_tod (n : Now) (t day : Nat) : Int :=
  fire_instant n t day % 86400

/-- ISO weekday (1 = Monday .. 7 = Sunday) of the fire instant. -/
def fire_weekday (n : Now) (t day : Nat) : Int :=
  (fire_instant n t day / 86400) % 7 + 1

/-! ### `error_exit`, lines 82-93 -/

/-- How the process ends after one execution cycle of the loop body, or how
the cycle continues: either the process exits with a status code after a
message was printed to stderr, or the command's (stripped) stdout is
printed and the loop goes on. -/
inductive CycleOutcome where
  | exited (code : Nat) (errMsg : String)
  | printedStdout (out : String)
deriving DecidableEq

/-- Lines 82-93: print `message` to stderr and `sys.exit(exit_code)`.
The Python default for `exit_code` is 1; call sites that rely on the
default pass 1 explicitly here. -/
def error_exit (message : String) (exit_code : Nat) : CycleOutcome :=
  .exited exit_code message

/-! ### Python string helpers used by `main` -/

/-- The whitespace characters removed by Python's `str.strip()`. -/
def isPySpace (c : Char) : Bool :=
  c = ' ' || c = '\t' || c = '\n' || c = '\r' || c = '\x0b' || c = '\x0c'

/-- Python `str.strip()`: remove whitespace from both ends. -/
def pyStrip (s : String) : String :=
  String.mk (((s.data.dropWhile isPySpace).reverse.dropWhile isPySpace).reverse)

/-- Removal of trailing whitespace only (what the spec sentence for the
surfaced stdout describes). -/
def stripTrailing (s : String) : String :=
  String.mk ((s.data.reverse.dropWhile isPySpace).reverse)

/-- Removal of leading whitespace only. -/
def stripLeading (s : String) : String :=
  String.mk (s.data.dropWhile isPySpace)

/-- Python `sep.join(parts)`: the parts concatenated with `sep` between
consecutive elements, nothing added at either end. -/
def pyJoin (sep : String) : List String → String
  | [] => ""
  | [x] => x
  | x :: y :: rest => x ++ sep ++ pyJoin sep (y :: rest)

/-! ### Command construction: `main`, lines 205-208 -/

/-- The configured command, as parsed from the command line
(`args.command`, `args.argument`, `args.shell`, `args.check`,
`args.repeat`, `args.timeout`). The `repeat` flag is named `rep` because
`repeat` is a Lean keyword. -/
structure CommandSpec where
  program : String
  arguments : List String
  use_shell : Bool
  check : Bool
  rep : Bool
  timeout : Option Nat
deriving DecidableEq

/-- Lines 205-206: `command_str` is the program, and when the argument list
is non-empty (Python truthiness of the list), a space and the space-joined
arguments. -/
def command_str (c : CommandSpec) : String :=
  if c.arguments ≠ [] then
    c.program ++ " " ++ pyJoin " " c.arguments
  else
    c.program

/-- What is handed to `subprocess.run`: a single shell command line when
`shell=True`, an argv vector otherwise. -/
inductive Invocation where
  | shellCmd (line : String)
  | execVec (argv : List String)
deriving DecidableEq

/-- Lines 207-208: `command = command_str if args.shell else [args.command] + args.argument`. -/
def invocation (c : CommandSpec) : Invocation :=
  if c.use_shell then .shellCmd (command_str c) else .execVec (c.program :: c.arguments)

/-! ### One execution cycle: `main`, lines 210-237 -/

/-- Linux `errno.ENOENT`. -/
def ENOENT : Nat := 2

/-- Linux `errno.EACCES`. -/
def EACCES : Nat := 13

/-- Linux `errno.ETIME`. -/
def ETIME : Nat := 62

/-- What `subprocess.run` does on one invocation, abstracting the operating
system: the command ran to completion with a return code and captured
output, or one of the three exceptional events occurred
(`FileNotFoundError`, `PermissionError` carrying its message,
`subprocess.TimeoutExpired` carrying the configured timeout). -/
inductive RunEvent where
  | completed (returncode : Nat) (stdout : String) (stderr : String)
  | fileNotFound
  | permissionError (msg : String)
  | timeoutExpired (timeout : Nat)
deriving DecidableEq

/-- Lines 210-237: run the command and classify the outcome.
`subprocess.run(..., check=args.check)` raises `CalledProcessError`
exactly when `check` is set and the return code is non-zero; the four
`except` clauses call `error_exit` with the messages and codes of lines
219-235; otherwise line 237 prints the stripped stdout. -/
def runCycle (check : Bool) (ev : RunEvent) : CycleOutcome :=
  match ev with
  | .fileNotFound => error_exit "Command not found" ENOENT
  | .completed code out err =>
      if check = true ∧ code ≠ 0 then
        error_exit
          ("Command exited with status code " ++ toString code ++ ": " ++ pyStrip err)
          code
      else
        .printedStdout (pyStrip out)
  | .permissionError msg => error_exit ("Permission error: " ++ msg) EACCES
  | .timeoutExpired t => error_exit ("Command timed out after " ++ toString t ++ " seconds") ETIME

/-! ### The control loop: `main`, lines 199-244 -/

/-- How a run of the control loop ends: the process exits with a status
code (and possibly a message on stderr), or the supplied list of per-cycle
events ran out while the loop was still repeating. -/
inductive LoopOutcome where
  | exit (code : Nat) (errMsg : Option String)
  | outOfEvents
deriving DecidableEq

/-- The `while True` loop of lines 199-244, driven by one `RunEvent` per
alarm firing: each cycle classifies its event with `runCycle`; an
`error_exit` terminates the process with that code; after a printed stdout
the loop continues when `repeat` is set (lines 238-242) and otherwise
breaks, letting `main` return and the process exit 0 (lines 243-244).
Returns the number of cycles executed and how the run ended. -/
def runLoop (check rep : Bool) : List RunEvent → Nat × LoopOutcome
  | [] => (0, .outOfEvents)
  | ev :: rest =>
      match runCycle check ev with
      | .exited code msg => (1, .exit code (some msg))
      | .printedStdout _ =>
          if rep then
            let r := runLoop check rep rest
            (r.1 + 1, r.2)
          else
            (1, .exit 0 none)

/-! ### The `KeyboardInterrupt` handler: `main`, lines 247-250 -/

/-- The state of the `threading.Timer`: whether a background wait is still
outstanding. -/
structure Timer where
  pending : Bool
deriving DecidableEq

/-- `threading.Timer.cancel()`: the timer's action will not run; no
background wait remains outstanding. -/
def Timer.cancel (_ : Timer) : Timer := ⟨false⟩

/-- `threading.Timer.join()`: wait for the timer thread to finish; the
timer state is unchanged. -/
def Timer.join (t : Timer) : Timer := t

/-- Lines 247-250: on `KeyboardInterrupt`, cancel and join the timer, then
`error_exit("Alarm stopped manually.")` with the default exit code 1. -/
def handle_keyboard_interrupt (t : Timer) : Timer × CycleOutcome :=
  ((t.cancel).join, error_exit "Alarm stopped manually." 1)

end Commandalarm

namespace Commandalarm

/-! ### Theorems -/

/-- Helper: `runLoop` on a cycle whose event produced an `error_exit`
terminates the process with that code and message. -/
theorem runLoop_cons_exited (check rep : Bool) (ev : RunEvent) (rest : List RunEvent)
    (code : Nat) (msg : String) (h : runCycle check ev = CycleOutcome.exited code msg) :
    runLoop check rep (ev :: rest) = (1, LoopOutcome.exit code (some msg)) := by
  simp [runLoop, h]

/-- C1: each outcome of one command execution maps to the enumerated
process exit behavior: exit 0 when repeat is disabled and the command
succeeded or checking is disabled; the command's own exit code (with its
stripped stderr in the stderr message) when checking is enabled and the
command exits non-zero; `errno.ENOENT` when the program is not found;
`errno.EACCES` on a permission error; `errno.ETIME` on a timeout. -/
theorem exit_code_mapping (check rep : Bool) (rest : List RunEvent) :
    (∀ code out err, rep = false → (check = false ∨ code = 0) →
        runLoop check rep (RunEvent.completed code out err :: rest) =
          (1, LoopOutcome.exit 0 none)) ∧
    (∀ code out err, check = true → code ≠ 0 →
        runLoop check rep (RunEvent.completed code out err :: rest) =
          (1, LoopOutcome.exit code
            (some ("Command exited with status code " ++ toString code ++ ": " ++ pyStrip err)))) ∧
    runLoop check rep (RunEvent.fileNotFound :: rest) =
      (1, LoopOutcome.exit ENOENT (some "Command not found")) ∧
    (∀ msg, runLoop check rep (RunEvent.permissionError msg :: rest) =
        (1, LoopOutcome.exit EACCES (some ("Permission error: " ++ msg)))) ∧
    (∀ t, runLoop check rep (RunEvent.timeoutExpired t :: rest) =
        (1, LoopOutcome.exit ETIME
          (some ("Command timed out after " ++ toString t ++ " seconds")))) := by
  refine ⟨?_, ?_, ?_, ?_, ?_⟩
  · intro code out err hrep hok
    subst hrep
    rcases hok with hc | hc <;> subst hc <;> simp [runLoop, runCycle]
  · intro code out err hc hnz
    subst hc
    exact runLoop_cons_exited true rep _ rest code _ (by simp [runCycle, error_exit, hnz])
  · exact runLoop_cons_exited check rep _ rest ENOENT _ rfl
  · intro msg
    exact runLoop_cons_exited check rep _ rest EACCES _ rfl
  · intro t
    exact runLoop_cons_exited check rep _ rest ETIME _ rfl

/-- C1 witness: with checking on and repeat off, a command that exits 0
gives process exit 0. -/
theorem exit_code_mapping_witness :
    runLoop true false [RunEvent.completed 0 "" ""] = (1, LoopOutcome.exit 0 none) :=
  (exit_code_mapping true false []).1 0 "" "" rfl (Or.inr rfl)

/-- C6: with repeat disabled, the loop performs exactly one execution cycle
and the process terminates, whatever the outcome of that cycle. -/
theorem no_repeat_single_cycle (check : Bool) (ev : RunEvent) (rest : List RunEvent) :
    (runLoop check false (ev :: rest)).1 = 1 ∧
    ∃ code msg, (runLoop check false (ev :: rest)).2 = LoopOutcome.exit code msg := by
  cases h : runCycle check ev with
  | exited code msg => exact ⟨by simp [runLoop, h], code, some msg, by simp [runLoop, h]⟩
  | printedStdout out => exact ⟨by simp [runLoop, h], 0, none, by simp [runLoop, h]⟩

/-- C7: in repeat mode, a cycle whose event is classified as an error
terminates the whole process with that error's exit code, while a cycle
that printed stdout lets the loop schedule the next cycle and continue. -/
theorem repeat_error_terminates (check : Bool) (ev : RunEvent) (rest : List RunEvent) :
    (∀ code msg, runCycle check ev = CycleOutcome.exited code msg →
        runLoop check true (ev :: rest) = (1, LoopOutcome.exit code (some msg))) ∧
    (∀ out, runCycle check ev = CycleOutcome.printedStdout out →
        runLoop check true (ev :: rest) =
          ((runLoop check true rest).1 + 1, (runLoop check true rest).2)) := by
  constructor
  · intro code msg h
    simp [runLoop, h]
  · intro out h
    simp [runLoop, h]

/-- C7 witness: in repeat mode a not-found event ends the process with
`errno.ENOENT` after one cycle. -/
theorem repeat_error_terminates_witness :
    runLoop true true [RunEvent.fileNotFound] =
      (1, LoopOutcome.exit ENOENT (some "Command not found")) :=
  (repeat_error_terminates true RunEvent.fileNotFound []).1 ENOENT "Command not found" rfl

/-- C5: with exit-code checking disabled, any return code of the command is
a success: its stripped stdout is surfaced, and with repeat disabled the
process exits 0. -/
theorem no_check_any_code_success (code : Nat) (out err : String) (rest : List RunEvent) :
    runCycle false (RunEvent.completed code out err) =
      CycleOutcome.printedStdout (pyStrip out) ∧
    runLoop false false (RunEvent.completed code out err :: rest) =
      (1, LoopOutcome.exit 0 none) := by
  constructor
  · simp [runCycle]
  · simp [runLoop, runCycle]

/-- C10: the not-found, permission-denied and timed-out classifications and
exit codes do not depend on the check flag, and the flag can only change
the outcome of a normal completion with non-zero return code. -/
theorem classification_independent_of_check (check : Bool) :
    runCycle check RunEvent.fileNotFound = CycleOutcome.exited ENOENT "Command not found" ∧
    (∀ msg, runCycle check (RunEvent.permissionError msg) =
        CycleOutcome.exited EACCES ("Permission error: " ++ msg)) ∧
    (∀ t, runCycle check (RunEvent.timeoutExpired t) =
        CycleOutcome.exited ETIME ("Command timed out after " ++ toString t ++ " seconds")) ∧
    (∀ ev, runCycle true ev ≠ runCycle false ev →
        ∃ code out err, ev = RunEvent.completed code out err ∧ code ≠ 0) := by
  refine ⟨rfl, fun msg => rfl, fun t => rfl, ?_⟩
  intro ev h
  cases ev with
  | completed code out err =>
      refine ⟨code, out, err, rfl, ?_⟩
      intro hc
      subst hc
      exact h (by simp [runCycle])
  | fileNotFound => exact absurd rfl h
  | permissionError m => exact absurd rfl h
  | timeoutExpired t => exact absurd rfl h

/-- C10 witness: the check flag changes the outcome only for a completion
with non-zero code, shown at return code 7. -/
theorem classification_independent_of_check_witness :
    ∃ code out err,
      RunEvent.completed 7 "o" "e" = RunEvent.completed code out err ∧ code ≠ 0 :=
  (classification_independent_of_check true).2.2.2 (RunEvent.completed 7 "o" "e") (by decide)

/-- C4: the command is a single shell string made of the program and the
space-joined arguments (unchanged, no escaping) when `use_shell` is set,
and the vector of the program followed by the arguments otherwise. -/
theorem invocation_shell_or_vector (c : CommandSpec) :
    invocation c =
      if c.use_shell then
        Invocation.shellCmd (pyJoin " " (c.program :: c.arguments))
      else
        Invocation.execVec (c.program :: c.arguments) := by
  unfold invocation command_str
  cases hs : c.use_shell with
  | false => simp
  | true =>
      cases ha : c.arguments with
      | nil => simp [pyJoin]
      | cons a as => simp [pyJoin]

/-- C9 counterexample: on stdout `" x"` the code surfaces `"x"` (Python
`str.strip()` removes leading whitespace too), while trimming only
trailing whitespace would keep `" x"`. -/
theorem stdout_strip_cex :
    runCycle true (RunEvent.completed 0 " x" "") = CycleOutcome.printedStdout "x" ∧
    stripTrailing " x" = " x" := by decide

/-- C9 (amended): on successful completion the surfaced stdout is the
captured stdout with both leading and trailing whitespace removed. -/
theorem stdout_strip_both_ends (check : Bool) (out err : String) :
    runCycle check (RunEvent.completed 0 out err) =
      CycleOutcome.printedStdout (stripTrailing (stripLeading out)) := by
  simp [runCycle]
  rfl

/-- C8: the keyboard-interrupt handler leaves no background wait pending
and ends the process with exit status 1 and the "Alarm stopped manually."
message. -/
theorem keyboard_interrupt_behavior (t : Timer) :
    (handle_keyboard_interrupt t).1.pending = false ∧
    (handle_keyboard_interrupt t).2 = CycleOutcome.exited 1 "Alarm stopped manually." := by
  exact ⟨rfl, rfl⟩

end Commandalarm

namespace Commandalarm

/-- C2 counterexample: at `now` = Monday midnight, requesting 00:00:00 on
Monday (weekday 1), the alarm instant coincides with `now`, the delay is
clamped to 1 second, and the fire instant's time-of-day is 1, not the
requested 0 — so the conjunction of the claim fails at this input. -/
theorem fire_matches_request_cex :
    ¬ (now_abs ⟨0, 0⟩ < fire_instant ⟨0, 0⟩ 0 1 ∧
       fire_instant ⟨0, 0⟩ 0 1 ≤ now_abs ⟨0, 0⟩ + 7 * 86400 ∧
       fire_tod ⟨0, 0⟩ 0 1 = 0 ∧
       fire_weekday ⟨0, 0⟩ 0 1 = 1) := by decide

/-- C2 (amended): for a valid time-of-day and weekday, whenever the
computed alarm instant does not coincide exactly with `now`, the fire
instant is strictly after `now`, at most 7 days ahead, and its time-of-day
and ISO weekday equal the requested ones exactly. -/
theorem fire_matches_request (n : Now) (t day : Nat)
    (hday1 : 1 ≤ day) (hday7 : day ≤ 7) (ht : t < 86400) (htod : n.tod < 86400)
    (hne : alarm_datetime n t day ≠ now_abs n) :
    now_abs n < fire_instant n t day ∧
    fire_instant n t day ≤ now_abs n + 7 * 86400 ∧
    fire_tod n t day = (t : Int) ∧
    fire_weekday n t day = (day : Int) := by
  unfold fire_weekday fire_tod fire_instant fire_delay seconds_until_alarm
  unfold alarm_datetime days_ahead days_ahead_init now_abs isoweekday at hne ⊢
  split_ifs at hne ⊢ <;> omega

/-- C2 witness: at Monday midnight, requesting 00:00:30 on Monday, the fire
instant is 30 seconds later with the requested time-of-day and weekday. -/
theorem fire_matches_request_witness :
    now_abs ⟨0, 0⟩ < fire_instant ⟨0, 0⟩ 30 1 ∧
    fire_instant ⟨0, 0⟩ 30 1 ≤ now_abs ⟨0, 0⟩ + 7 * 86400 ∧
    fire_tod ⟨0, 0⟩ 30 1 = ((30 : Nat) : Int) ∧
    fire_weekday ⟨0, 0⟩ 30 1 = ((1 : Nat) : Int) :=
  fire_matches_request ⟨0, 0⟩ 30 1 (by decide) (by decide) (by decide) (by decide) (by decide)

/-- C3 counterexample: at `now` = Monday midnight, requesting 00:00:00 on
Monday, the instant from the weekday arithmetic is not in the future (it
equals `now`), yet it is not advanced by one week — the code clamps the
timer delay to 1 second instead. -/
theorem week_advance_cex :
    candidate_datetime ⟨0, 0⟩ 0 1 ≤ now_abs ⟨0, 0⟩ ∧
    alarm_datetime ⟨0, 0⟩ 0 1 ≠ candidate_datetime ⟨0, 0⟩ 0 1 + 7 * 86400 := by decide

/-- C3 (amended): the fire instant is always strictly in the future;
whenever the instant from the weekday/time-of-day arithmetic is strictly
in the past it is advanced by exactly one week; when the alarm instant
equals `now` it is not advanced, and the fire instant is `now` plus the
1-second clamp. -/
theorem week_advance (n : Now) (t day : Nat)
    (hday1 : 1 ≤ day) (hday7 : day ≤ 7) (ht : t < 86400) (htod : n.tod < 86400) :
    now_abs n < fire_instant n t day ∧
    (candidate_datetime n t day < now_abs n →
      alarm_datetime n t day = candidate_datetime n t day + 7 * 86400) ∧
    (alarm_datetime n t day = now_abs n → fire_instant n t day = now_abs n + 1) := by
  unfold fire_instant fire_delay seconds_until_alarm alarm_datetime candidate_datetime
    days_ahead days_ahead_init now_abs isoweekday
  split_ifs <;> omega

/-- C3 witness: on a Wednesday, requesting Monday midnight: the arithmetic
instant is in the past and the alarm is exactly one week after it. -/
theorem week_advance_witness :
    candidate_datetime ⟨2, 100⟩ 0 1 < now_abs ⟨2, 100⟩ ∧
    alarm_datetime ⟨2, 100⟩ 0 1 = candidate_datetime ⟨2, 100⟩ 0 1 + 7 * 86400 :=
  ⟨by decide,
   (week_advance ⟨2, 100⟩ 0 1 (by decide) (by decide) (by decide) (by decide)).2.1 (by decide)⟩

end Commandalarm
